import Mathlib

/-!
Shallow embedding of the coastal-threat monitoring demo (TypeScript sources):
the sensor/alert data model, the API stub (threat detection, authentication,
historical data, websocket subscription), the statistical anomaly-detection
heuristic of the ML component, the chatbot tide branch, and the alert panel
severity filter. Machine numbers are modelled as real numbers; timestamps as
integers (epoch milliseconds). Presentation-only fields built from string
interpolation of numbers (ids using the clock, textual descriptions, feature
strings) and nondeterministic random values are omitted from the embedded
records; every retained field follows the source.
-/

namespace Coastal

/-- Sensor kinds of the SensorData interface in the API module. -/
inductive SensorType
  | tide_gauge
  | weather_station
  | water_quality
  | seismic
deriving DecidableEq

/-- Reading status of the SensorData interface. -/
inductive Status
  | normal
  | warning
  | critical
deriving DecidableEq

/-- Location record shared by readings and alerts. -/
structure Location where
  lat : ℝ
  lng : ℝ
  name : String

/-- One sensor reading (SensorData interface); the random value field of the
generators is left abstract, only its type is fixed. -/
structure SensorData where
  id : String
  type : SensorType
  location : Location
  value : ℝ
  unit : String
  timestamp : ℤ
  status : Status

/-- Alert severity of the ThreatAlert interface. -/
inductive Severity
  | low
  | medium
  | high
  | critical
deriving DecidableEq

/-- A threat alert (ThreatAlert interface). The type field is kept as a string
because the ML component writes a lowercased threat-type string into it through
an unchecked cast; id, description and the two Date fields are
presentation-only (built from the clock and number formatting) and omitted. -/
structure ThreatAlert where
  type : String
  severity : Severity
  location : Location
  affectedAreas : List String

/-- An anomaly prediction of the ML component (MLPrediction interface); the
features field, a list of formatted display strings, is omitted. -/
structure MLPrediction where
  threatType : String
  probability : ℝ
  confidence : ℝ
  location : String

/-- A user record (User interface); role is the union-of-strings type. -/
structure User where
  id : String
  name : String
  email : String
  role : String
  organization : String
  permissions : List String
deriving DecidableEq

/-! ### Anomaly detection heuristic (MLThreatDetection.detectAnomalies) -/

/-- Mean of a list of values: sum divided by length, exactly as the source
computes avgTide (division by a zero length is total in this embedding). -/
noncomputable def avgOf (vals : List ℝ) : ℝ := vals.sum / vals.length

/-- Population standard deviation as the source computes tideStdDev:
square root of the mean squared deviation from the mean. -/
noncomputable def stdDevOf (vals : List ℝ) : ℝ :=
  Real.sqrt ((vals.map (fun v => (v - avgOf vals) ^ 2)).sum / vals.length)

/-- Absolute z-score of a value against a list, as computed per tide sensor. -/
noncomputable def zScore (vals : List ℝ) (v : ℝ) : ℝ :=
  |(v - avgOf vals) / stdDevOf vals|

/-- Tide branch of detectAnomalies: for a location group's tide readings,
flag every reading whose absolute z-score exceeds 2, with the threat type,
probability and confidence formulas of the source. -/
noncomputable def tidePredictions (location : String) (tideData : List SensorData) :
    List MLPrediction :=
  if 0 < tideData.length then
    tideData.filterMap (fun s =>
      if 2 < zScore (tideData.map (fun t => t.value)) s.value then
        some { threatType :=
                 if avgOf (tideData.map (fun t => t.value)) < s.value then
                   "Storm Surge Risk"
                 else "Unusual Low Tide",
               probability :=
                 min (zScore (tideData.map (fun t => t.value)) s.value * 0.3) 0.95,
               confidence :=
                 min (zScore (tideData.map (fun t => t.value)) s.value * 0.25) 0.9,
               location := location }
      else none)
  else []

/-- Maximum of a list of reals, as Math.max over a spread nonempty list; the
empty case (never hit behind the length guard) is 0. -/
noncomputable def maxVal : List ℝ → ℝ
  | [] => 0
  | v :: vs => vs.foldl max v

/-- Minimum of a list of reals, as Math.min over a spread nonempty list. -/
noncomputable def minVal : List ℝ → ℝ
  | [] => 0
  | v :: vs => vs.foldl min v

/-- Wind branch of detectAnomalies: one Cyclonic Activity prediction when the
maximum wind value of the group exceeds 60. -/
noncomputable def windPredictions (location : String) (windData : List SensorData) :
    List MLPrediction :=
  if 0 < windData.length then
    if 60 < maxVal (windData.map (fun s => s.value)) then
      [{ threatType := "Cyclonic Activity",
         probability := min ((maxVal (windData.map (fun s => s.value)) - 60) / 40) 0.95,
         confidence := min ((maxVal (windData.map (fun s => s.value)) - 50) / 50) 0.9,
         location := location }]
    else []
  else []

/-- Water-quality branch of detectAnomalies: one Water Pollution prediction
when the minimum quality value of the group drops below 40. -/
noncomputable def qualityPredictions (location : String) (qualityData : List SensorData) :
    List MLPrediction :=
  if 0 < qualityData.length then
    if minVal (qualityData.map (fun s => s.value)) < 40 then
      [{ threatType := "Water Pollution",
         probability := min ((40 - minVal (qualityData.map (fun s => s.value))) / 40) 0.95,
         confidence := min ((50 - minVal (qualityData.map (fun s => s.value))) / 50) 0.85,
         location := location }]
    else []
  else []

/-- One step of the reduce that groups readings by location name: append the
reading to its group when the key exists, else add a new group at the end
(JS object string keys keep insertion order). -/
def addToGroups (gs : List (String × List SensorData)) (s : SensorData) :
    List (String × List SensorData) :=
  match gs with
  | [] => [(s.location.name, [s])]
  | (k, items) :: rest =>
      if k == s.location.name then (k, items ++ [s]) :: rest
      else (k, items) :: addToGroups rest s

/-- Grouping of readings by location name (the reduce in detectAnomalies). -/
def groupByLocation (data : List SensorData) : List (String × List SensorData) :=
  data.foldl addToGroups []

/-- The full anomaly-detection pass: per location group, tide then wind then
water-quality predictions, concatenated in group order. -/
noncomputable def detectAnomalies (data : List SensorData) : List MLPrediction :=
  (groupByLocation data).flatMap (fun g =>
    tidePredictions g.1 (g.2.filter (fun s => s.type == SensorType.tide_gauge)) ++
    windPredictions g.1 (g.2.filter (fun s => s.type == SensorType.weather_station)) ++
    qualityPredictions g.1 (g.2.filter (fun s => s.type == SensorType.water_quality)))

/-! ### Feedback of predictions into alerts (MLThreatDetection.runPredictions) -/

/-- The threat-type string written into the generated alert: the prediction's
threat type lowercased with spaces replaced by underscores. -/
def normalizeType (t : String) : String := (t.toLower).replace (" ") ("_")

/-- The alert built from a high-probability prediction in runPredictions:
severity is critical above 0.9, high above 0.8, else medium; affected areas is
the single location name. -/
noncomputable def mkMLAlert (p : MLPrediction) (loc : Location) : ThreatAlert :=
  { type := normalizeType p.threatType,
    severity :=
      if 0.9 < p.probability then Severity.critical
      else if 0.8 < p.probability then Severity.high
      else Severity.medium,
    location := loc,
    affectedAreas := [loc.name] }

/-- The location of the first reading whose location name matches the
prediction's location string, with a dummy fallback (used only under the
guarantee that a match exists). -/
noncomputable def locFor (sensorData : List SensorData) (p : MLPrediction) : Location :=
  match sensorData.find? (fun s => s.location.name == p.location) with
  | some s => s.location
  | none => ⟨0, 0, ""⟩

/-- The list of alerts handed to onThreatDetected by runPredictions, in
prediction order: for each prediction with probability above 0.7 whose
location resolves against the reading list, one alert; otherwise none. -/
noncomputable def runPredictionAlerts (sensorData : List SensorData)
    (anomalies : List MLPrediction) : List ThreatAlert :=
  anomalies.flatMap (fun p =>
    if 0.7 < p.probability then
      match sensorData.find? (fun s => s.location.name == p.location) with
      | some s => [mkMLAlert p s.location]
      | none => []
    else [])

/-! ### API stub: detectThreats, authenticateUser, getHistoricalData,
connectWebSocket (CoastalAPI class) -/

/-- The storm-surge alert detectThreats pushes for a tide reading above 2.5:
critical past 3, else high. -/
noncomputable def surgeAlert (d : SensorData) : ThreatAlert :=
  { type := "storm_surge",
    severity := if 3 < d.value then Severity.critical else Severity.high,
    location := d.location,
    affectedAreas := [d.location.name ++ (" vicinity")] }

/-- The cyclone alert detectThreats pushes for a weather reading above 60:
critical past 80, else high. -/
noncomputable def cycloneAlert (d : SensorData) : ThreatAlert :=
  { type := "cyclone",
    severity := if 80 < d.value then Severity.critical else Severity.high,
    location := d.location,
    affectedAreas := [d.location.name ++ (" region")] }

/-- CoastalAPI.detectThreats: scan the readings in order; a tide gauge above
2.5 contributes a storm-surge alert, a weather station above 60 contributes a
cyclone alert, nothing else contributes. -/
noncomputable def detectThreats (sensorData : List SensorData) : List ThreatAlert :=
  sensorData.flatMap (fun d =>
    (if d.type = SensorType.tide_gauge ∧ 2.5 < d.value then [surgeAlert d] else []) ++
    (if d.type = SensorType.weather_station ∧ 60 < d.value then [cycloneAlert d] else []))

/-- The fixed two-entry roster of CoastalAPI.authenticateUser. -/
def mockUsers : List User :=
  [{ id := "user_001",
     name := "Dr. Rajesh Kumar",
     email := "rajesh@emergency.gov.in",
     role := "emergency_manager",
     organization := "National Disaster Management Authority",
     permissions := ["view_all", "create_alerts", "manage_users"] },
   { id := "user_002",
     name := "Priya Sharma",
     email := "priya@coastal.ngo",
     role := "ngo",
     organization := "Coastal Conservation Society",
     permissions := ["view_data", "create_reports"] }]

/-- CoastalAPI.authenticateUser: after a fixed delay (irrelevant here), return
the first roster entry whose email matches, or none; the password argument is
never read. -/
def authenticateUser (email : String) (_password : String) : Option User :=
  mockUsers.find? (fun u => u.email == email)

/-- One synthesized historical reading: its index in the loop and its
timestamp; the reading's sine-plus-noise value, constant location and unit are
presentation data independent of the claimed count/date properties. -/
structure HistoricalReading where
  idx : ℕ
  timestamp : ℤ
deriving DecidableEq

/-- Milliseconds per day, 1000 * 60 * 60 * 24 as in the source. -/
def msPerDay : ℤ := 86400000

/-- Math.ceil((end - start) / msPerDay) over exact arithmetic. -/
def daysDiff (startDate endDate : ℤ) : ℤ :=
  ⌈((endDate - startDate : ℤ) : ℚ) / (msPerDay : ℚ)⌉

/-- CoastalAPI.getHistoricalData: one reading per loop index i below daysDiff,
with timestamp startDate + i * msPerDay. -/
def getHistoricalData (startDate endDate : ℤ) : List HistoricalReading :=
  (List.range (daysDiff startDate endDate).toNat).map
    (fun i => { idx := i, timestamp := startDate + i * msPerDay })

/-- Timer registry of the mock websocket: how many repeating data-delivery
timers and alert timers are installed. -/
structure WSState where
  dataTimers : ℕ
  alertTimers : ℕ
deriving DecidableEq

/-- CoastalAPI.connectWebSocket: each call unconditionally installs one more
repeating data timer and one more repeating alert timer via setInterval; no
existing registration is checked or removed. -/
def connectWebSocket (st : WSState) : WSState :=
  { dataTimers := st.dataTimers + 1, alertTimers := st.alertTimers + 1 }

/-- Number of times a reading is delivered to the data callback per data
interval tick: each installed data timer fires once per tick. -/
def readingDeliveries (st : WSState) : ℕ := st.dataTimers

/-! ### Chatbot tide branch (generateResponse) -/

/-- Whether the pattern list occurs at the head of the text list. -/
def leadsWith : List Char → List Char → Bool
  | [], _ => true
  | _ :: _, [] => false
  | a :: as, b :: bs => a == b && leadsWith as bs

/-- Whether the pattern list occurs anywhere in the text list (substring test
behind String.prototype.includes). -/
def occursIn (pat : List Char) : List Char → Bool
  | [] => pat.isEmpty
  | b :: bs => leadsWith pat (b :: bs) || occursIn pat bs

/-- The guard of the tide branch of generateResponse: the lowercased message
(characterwise toLowerCase) contains tide or water level. -/
def triggersTide (userMessage : String) : Bool :=
  occursIn ("tide").data (userMessage.data.map Char.toLower) ||
  occursIn ("water level").data (userMessage.data.map Char.toLower)

/-- The tide readings the branch averages over. -/
def tideReadings (sensorData : List SensorData) : List SensorData :=
  sensorData.filter (fun s => s.type == SensorType.tide_gauge)

/-- The average the tide branch computes, with no emptiness guard: sum of tide
values divided by the number of tide readings. -/
noncomputable def tideResponseAvg (sensorData : List SensorData) : ℝ :=
  ((tideReadings sensorData).map (fun s => s.value)).sum / (tideReadings sensorData).length

/-- The numeric average embedded in the tide branch's reply, when the branch
fires; none when the message does not mention tide or water level. -/
noncomputable def generateResponseTideAvg (userMessage : String)
    (sensorData : List SensorData) : Option ℝ :=
  if triggersTide userMessage then some (tideResponseAvg sensorData) else none

/-! ### Alert panel severity filter (AlertPanel.filteredAlerts) -/

/-- The string value a severity takes in the filter dropdown. -/
def sevStr : Severity → String
  | Severity.low => "low"
  | Severity.medium => "medium"
  | Severity.high => "high"
  | Severity.critical => "critical"

/-- AlertPanel.filteredAlerts: the whole list when the filter is all, else the
alerts whose severity equals the filter value. -/
def filteredAlerts (filterSeverity : String) (alerts : List ThreatAlert) :
    List ThreatAlert :=
  if filterSeverity == "all" then alerts
  else alerts.filter (fun a => sevStr a.severity == filterSeverity)

/-! ### Concrete demo inputs used by witnesses -/

/-- A concrete weather-station reading with wind value 70. -/
noncomputable def windDemo : SensorData :=
  { id := "weather_demo", type := SensorType.weather_station,
    location := ⟨13, 80, "Chennai Coast"⟩, value := 70, unit := "kmh",
    timestamp := 0, status := Status.normal }

/-- A concrete water-quality reading with value 30. -/
noncomputable def qualityDemo : SensorData :=
  { id := "quality_demo", type := SensorType.water_quality,
    location := ⟨15, 74, "Goa Coast"⟩, value := 30, unit := "ppm",
    timestamp := 0, status := Status.normal }

/-- A concrete tide-gauge reading with value 2. -/
noncomputable def tideDemo : SensorData :=
  { id := "tide_demo", type := SensorType.tide_gauge,
    location := ⟨13, 80, "Chennai Coast"⟩, value := 2, unit := "meters",
    timestamp := 0, status := Status.normal }

/-! ### Claims -/

/-- Claim C6: authenticateUser returns the fixed NDMA emergency-manager record
for the rajesh email whatever the password, none for an unknown email, and in
general exactly the roster entry matching the email, independent of the
password argument. -/
theorem c6_authenticate :
    (∀ pw : String, authenticateUser ("rajesh@emergency.gov.in") pw =
      some { id := "user_001",
             name := "Dr. Rajesh Kumar",
             email := "rajesh@emergency.gov.in",
             role := "emergency_manager",
             organization := "National Disaster Management Authority",
             permissions := ["view_all", "create_alerts", "manage_users"] }) ∧
    (∀ pw : String, authenticateUser ("unknown@x.com") pw = none) ∧
    (∀ email pw1 pw2 : String, authenticateUser email pw1 = authenticateUser email pw2) ∧
    (∀ email pw : String,
      authenticateUser email pw = mockUsers.find? (fun u => u.email == email)) :=
  ⟨fun _ => rfl, fun _ => rfl, fun _ _ _ => rfl, fun _ _ => rfl⟩

/-- Claim C8 counterexample: calling connectWebSocket a second time does not
leave per-interval reading deliveries at one; after two subscriptions each
interval delivers the reading twice, not once as after a single
subscription. -/
theorem c8_counterexample :
    ¬ (readingDeliveries (connectWebSocket (connectWebSocket ⟨0, 0⟩)) =
       readingDeliveries (connectWebSocket ⟨0, 0⟩)) := by decide

/-- Claim C8 amended: connectWebSocket is not idempotent; every call installs
one more repeating data timer and one more repeating alert timer, so each
delivery interval delivers each reading once per accumulated subscription. -/
theorem c8_subscribe_adds_timer :
    ∀ st : WSState,
      readingDeliveries (connectWebSocket st) = readingDeliveries st + 1 ∧
      (connectWebSocket st).alertTimers = st.alertTimers + 1 :=
  fun _ => ⟨rfl, rfl⟩

/-- Claim C10: with filter value all the severity filter returns the alert
list unchanged; in general the filtered list is a sublist of the input (order
preserved) holding exactly the alerts whose severity string matches the
filter value (all matching everything). -/
theorem c10_filteredAlerts (fs : String) (alerts : List ThreatAlert) :
    filteredAlerts ("all") alerts = alerts ∧
    (filteredAlerts fs alerts).Sublist alerts ∧
    (∀ a : ThreatAlert, a ∈ filteredAlerts fs alerts ↔
      a ∈ alerts ∧ (fs = "all" ∨ sevStr a.severity = fs)) := by
  refine ⟨by simp [filteredAlerts], ?_, ?_⟩
  · unfold filteredAlerts
    by_cases h : fs = "all"
    · simp [h]
    · simp only [beq_iff_eq, h, if_false]
      exact List.filter_sublist alerts
  · intro a
    unfold filteredAlerts
    by_cases h : fs = "all"
    · simp [h]
    · simp only [beq_iff_eq, h, if_false, List.mem_filter, false_or]

/-- Claim C3: for a nonempty group of weather-station readings, a Cyclonic
Activity prediction is emitted iff the maximum wind value strictly exceeds 60
(so exactly 60 emits nothing), and when it does the single prediction carries
probability min((max-60)/40, 0.95) and confidence min((max-50)/50, 0.9). -/
theorem c3_windPredictions (loc : String) (l : List SensorData) (h : l ≠ []) :
    (windPredictions loc l ≠ [] ↔ 60 < maxVal (l.map (fun s => s.value))) ∧
    (60 < maxVal (l.map (fun s => s.value)) →
      windPredictions loc l =
        [{ threatType := "Cyclonic Activity",
           probability := min ((maxVal (l.map (fun s => s.value)) - 60) / 40) 0.95,
           confidence := min ((maxVal (l.map (fun s => s.value)) - 50) / 50) 0.9,
           location := loc }]) := by
  have hlen : 0 < l.length := List.length_pos.mpr h
  unfold windPredictions
  rw [if_pos hlen]
  by_cases h60 : 60 < maxVal (l.map (fun s => s.value))
  · rw [if_pos h60]
    exact ⟨by simp [h60], fun _ => rfl⟩
  · rw [if_neg h60]
    exact ⟨by simp [h60], fun hc => absurd hc h60⟩

/-- Claim C3 witness: the theorem applied to the singleton wind reading of
value 70. -/
theorem c3_witness :
    ([windDemo] : List SensorData) ≠ [] ∧
    ((windPredictions ("Chennai Coast") [windDemo] ≠ [] ↔
        60 < maxVal ([windDemo].map (fun s => s.value))) ∧
      (60 < maxVal ([windDemo].map (fun s => s.value)) →
        windPredictions ("Chennai Coast") [windDemo] =
          [{ threatType := "Cyclonic Activity",
             probability := min ((maxVal ([windDemo].map (fun s => s.value)) - 60) / 40) 0.95,
             confidence := min ((maxVal ([windDemo].map (fun s => s.value)) - 50) / 50) 0.9,
             location := "Chennai Coast" }])) :=
  ⟨List.cons_ne_nil _ _, c3_windPredictions ("Chennai Coast") [windDemo] (List.cons_ne_nil _ _)⟩

/-- Claim C4: for a nonempty group of water-quality readings, a Water
Pollution prediction is emitted iff the minimum quality value is strictly
below 40 (so exactly 40 emits nothing), and when it is the single prediction
carries probability min((40-min)/40, 0.95) and confidence
min((50-min)/50, 0.85). -/
theorem c4_qualityPredictions (loc : String) (l : List SensorData) (h : l ≠ []) :
    (qualityPredictions loc l ≠ [] ↔ minVal (l.map (fun s => s.value)) < 40) ∧
    (minVal (l.map (fun s => s.value)) < 40 →
      qualityPredictions loc l =
        [{ threatType := "Water Pollution",
           probability := min ((40 - minVal (l.map (fun s => s.value))) / 40) 0.95,
           confidence := min ((50 - minVal (l.map (fun s => s.value))) / 50) 0.85,
           location := loc }]) := by
  have hlen : 0 < l.length := List.length_pos.mpr h
  unfold qualityPredictions
  rw [if_pos hlen]
  by_cases h40 : minVal (l.map (fun s => s.value)) < 40
  · rw [if_pos h40]
    exact ⟨by simp [h40], fun _ => rfl⟩
  · rw [if_neg h40]
    exact ⟨by simp [h40], fun hc => absurd hc h40⟩

/-- Claim C4 witness: the theorem applied to the singleton quality reading of
value 30. -/
theorem c4_witness :
    ([qualityDemo] : List SensorData) ≠ [] ∧
    ((qualityPredictions ("Goa Coast") [qualityDemo] ≠ [] ↔
        minVal ([qualityDemo].map (fun s => s.value)) < 40) ∧
      (minVal ([qualityDemo].map (fun s => s.value)) < 40 →
        qualityPredictions ("Goa Coast") [qualityDemo] =
          [{ threatType := "Water Pollution",
             probability := min ((40 - minVal ([qualityDemo].map (fun s => s.value))) / 40) 0.95,
             confidence := min ((50 - minVal ([qualityDemo].map (fun s => s.value))) / 50) 0.85,
             location := "Goa Coast" }])) :=
  ⟨List.cons_ne_nil _ _, c4_qualityPredictions ("Goa Coast") [qualityDemo] (List.cons_ne_nil _ _)⟩

/-- Claim C5: when start is strictly before end, getHistoricalData returns
exactly ceil((end - start) / msPerDay) readings, the reading at index i has
timestamp start + i * msPerDay, and the timestamps are strictly increasing. -/
theorem c5_getHistoricalData (s e : ℤ) (h : s < e) :
    ((getHistoricalData s e).length : ℤ) = daysDiff s e ∧
    (∀ i (hi : i < (getHistoricalData s e).length),
      ((getHistoricalData s e).get ⟨i, hi⟩).timestamp = s + i * msPerDay) ∧
    List.Chain' (fun a b => a < b)
      ((getHistoricalData s e).map (fun r => r.timestamp)) := by
  have hpos : 0 ≤ daysDiff s e := by
    unfold daysDiff
    apply Int.ceil_nonneg
    apply div_nonneg
    · exact_mod_cast sub_nonneg.mpr h.le
    · norm_num [msPerDay]
  refine ⟨?_, ?_, ?_⟩
  · simp [getHistoricalData, Int.toNat_of_nonneg hpos]
  · intro i hi
    simp [getHistoricalData]
  · have hmap : (getHistoricalData s e).map (fun r => r.timestamp) =
        (List.range (daysDiff s e).toNat).map (fun i : ℕ => s + (i : ℤ) * msPerDay) := by
      simp only [getHistoricalData, List.map_map]
      rfl
    rw [hmap]
    apply List.Pairwise.chain'
    apply List.Pairwise.map (fun i : ℕ => s + (i : ℤ) * msPerDay)
      (fun a b hab => ?_) (List.pairwise_lt_range _)
    have h1 : (a : ℤ) < (b : ℤ) := by exact_mod_cast hab
    have h2 : (a : ℤ) * msPerDay < (b : ℤ) * msPerDay := by
      apply mul_lt_mul_of_pos_right h1
      norm_num [msPerDay]
    exact add_lt_add_left h2 s

/-- Claim C5 witness: the theorem applied to start 0 and end 100000000
(a span of two days, since one day is 86400000 milliseconds). -/
theorem c5_witness :
    (0 : ℤ) < 100000000 ∧
    (((getHistoricalData 0 100000000).length : ℤ) = daysDiff 0 100000000 ∧
     (∀ i (hi : i < (getHistoricalData 0 100000000).length),
       ((getHistoricalData 0 100000000).get ⟨i, hi⟩).timestamp = 0 + i * msPerDay) ∧
     List.Chain' (fun a b => a < b)
       ((getHistoricalData 0 100000000).map (fun r => r.timestamp))) :=
  ⟨by decide, c5_getHistoricalData 0 100000000 (by decide)⟩

/-- Claim C9: when the message mentions tide or water level, the chatbot
computes the average tide as the sum of tide-gauge values divided by the
number of tide-gauge readings, with no emptiness guard; that divisor is
nonzero exactly when the reading list holds at least one tide-gauge
reading. -/
theorem c9_tideBranch (msg : String) (sensorData : List SensorData)
    (h : triggersTide msg = true) :
    generateResponseTideAvg msg sensorData =
      some (((tideReadings sensorData).map (fun s => s.value)).sum /
            ((tideReadings sensorData).length : ℝ)) ∧
    ((tideReadings sensorData).length ≠ 0 ↔
      ∃ s ∈ sensorData, s.type = SensorType.tide_gauge) := by
  constructor
  · simp [generateResponseTideAvg, h, tideResponseAvg]
  · constructor
    · intro hlen
      have hne : tideReadings sensorData ≠ [] := by
        intro hnil
        rw [hnil] at hlen
        exact hlen rfl
      obtain ⟨x, hx⟩ := List.exists_mem_of_ne_nil _ hne
      have hx2 := List.mem_filter.mp hx
      exact ⟨x, hx2.1, by simpa using hx2.2⟩
    · rintro ⟨x, hxl, hxt⟩
      intro h0
      have hmem : x ∈ tideReadings sensorData :=
        List.mem_filter.mpr ⟨hxl, by simp [hxt]⟩
      rw [List.length_eq_zero] at h0
      rw [h0] at hmem
      exact absurd hmem (List.not_mem_nil x)

/-- Claim C9 witness: the theorem applied to a message mentioning tide and the
singleton list holding one tide-gauge reading. -/
theorem c9_witness :
    triggersTide ("tide status") = true ∧
    (generateResponseTideAvg ("tide status") [tideDemo] =
      some (((tideReadings [tideDemo]).map (fun s => s.value)).sum /
            ((tideReadings [tideDemo]).length : ℝ)) ∧
     ((tideReadings [tideDemo]).length ≠ 0 ↔
       ∃ s ∈ [tideDemo], s.type = SensorType.tide_gauge)) :=
  ⟨by decide, c9_tideBranch ("tide status") [tideDemo] (by decide)⟩

/-- Sum of a constant-shifted list: the shift contributes once per element. -/
theorem sum_map_add_const (vals : List ℝ) (c : ℝ) :
    (vals.map (fun v => v + c)).sum = vals.sum + vals.length * c := by
  induction vals with
  | nil => simp
  | cons v t ih =>
      simp only [List.map_cons, List.sum_cons, ih, List.length_cons]
      push_cast
      ring

/-- The mean of a nonempty list shifts with a constant shift of its values. -/
theorem avgOf_shift (vals : List ℝ) (c : ℝ) (h : vals ≠ []) :
    avgOf (vals.map (fun v => v + c)) = avgOf vals + c := by
  have hn : (vals.length : ℝ) ≠ 0 := by
    exact_mod_cast Nat.pos_iff_ne_zero.mp (List.length_pos.mpr h)
  unfold avgOf
  rw [sum_map_add_const, List.length_map]
  field_simp
  ring

/-- Squared deviations from the mean are unchanged by a constant shift. -/
theorem sqdev_shift (vals : List ℝ) (c : ℝ) (h : vals ≠ []) :
    (vals.map (fun v => v + c)).map
        (fun v => (v - avgOf (vals.map (fun w => w + c))) ^ 2) =
      vals.map (fun v => (v - avgOf vals) ^ 2) := by
  rw [avgOf_shift vals c h, List.map_map]
  congr 1
  funext v
  simp only [Function.comp_apply]
  ring

/-- The standard deviation is unchanged by a constant shift of the values. -/
theorem stdDevOf_shift (vals : List ℝ) (c : ℝ) (h : vals ≠ []) :
    stdDevOf (vals.map (fun v => v + c)) = stdDevOf vals := by
  unfold stdDevOf
  rw [sqdev_shift vals c h, List.length_map]

/-- The absolute z-score is invariant under shifting the list and the value by
the same constant (also in the degenerate empty case, where both sides are the
zero of total division). -/
theorem zScore_shift (vals : List ℝ) (c v : ℝ) :
    zScore (vals.map (fun x => x + c)) (v + c) = zScore vals v := by
  rcases eq_or_ne vals [] with rfl | h
  · simp [zScore, avgOf, stdDevOf]
  · unfold zScore
    rw [avgOf_shift vals c h, stdDevOf_shift vals c h]
    have hx : v + c - (avgOf vals + c) = v - avgOf vals := by ring
    rw [hx]

/-- Claim C1: adding one constant to every tide value of a location group
leaves every z-score unchanged, and leaves the flagged tide anomalies with
their threat types, probabilities and confidences unchanged. -/
theorem c1_tideShiftInvariance (loc : String) (l : List SensorData) (c : ℝ) :
    (∀ v : ℝ, zScore ((l.map (fun s => s.value)).map (fun x => x + c)) (v + c) =
      zScore (l.map (fun s => s.value)) v) ∧
    tidePredictions loc (l.map (fun s => { s with value := s.value + c })) =
      tidePredictions loc l := by
  refine ⟨fun v => zScore_shift _ c v, ?_⟩
  rcases eq_or_ne l [] with rfl | hl
  · rfl
  · have hv : l.map (fun s => s.value) ≠ [] := by
      simpa using hl
    have hvals : (l.map (fun s => { s with value := s.value + c })).map
        (fun t => t.value) = (l.map (fun t => t.value)).map (fun x => x + c) := by
      simp only [List.map_map]
      rfl
    have hlen : 0 < (l.map (fun s => { s with value := s.value + c })).length := by
      simpa using List.length_pos.mpr hl
    have hlen2 : 0 < l.length := List.length_pos.mpr hl
    unfold tidePredictions
    rw [if_pos hlen, if_pos hlen2, List.filterMap_map]
    congr 1
    funext s
    simp only [Function.comp_apply]
    rw [hvals, zScore_shift _ c s.value, avgOf_shift _ c hv]
    by_cases hz : 2 < zScore (l.map (fun t => t.value)) s.value
    · rw [if_pos hz, if_pos hz]
      have hlt : (avgOf (l.map (fun t => t.value)) + c < s.value + c) ↔
          (avgOf (l.map (fun t => t.value)) < s.value) := add_lt_add_iff_right c
      by_cases ha : avgOf (l.map (fun t => t.value)) < s.value
      · rw [if_pos (hlt.mpr ha), if_pos ha]
      · rw [if_neg (fun hx => ha (hlt.mp hx)), if_neg ha]
    · rw [if_neg hz, if_neg hz]

/-- The storm-surge alert record carries the storm_surge type tag. -/
theorem surgeAlert_type (d : SensorData) : (surgeAlert d).type = "storm_surge" := rfl

/-- The cyclone alert record carries the cyclone type tag. -/
theorem cycloneAlert_type (d : SensorData) : (cycloneAlert d).type = "cyclone" := rfl

/-- Unfolding detectThreats over the head reading. -/
theorem detectThreats_cons (d : SensorData) (t : List SensorData) :
    detectThreats (d :: t) =
      ((if d.type = SensorType.tide_gauge ∧ 2.5 < d.value then [surgeAlert d] else []) ++
       (if d.type = SensorType.weather_station ∧ 60 < d.value then [cycloneAlert d] else [])) ++
      detectThreats t := by
  simp [detectThreats]

/-- The storm-surge alerts of detectThreats are exactly one alert per tide
reading above 2.5, in reading order. -/
theorem detectThreats_storm (l : List SensorData) :
    (detectThreats l).filter (fun a => a.type == "storm_surge") =
      (l.filter (fun d => d.type == SensorType.tide_gauge &&
        decide ((2.5 : ℝ) < d.value))).map surgeAlert := by
  induction l with
  | nil => rfl
  | cons d t ih =>
      rw [detectThreats_cons, List.filter_append, List.filter_append, ih, List.filter_cons]
      by_cases h1 : d.type = SensorType.tide_gauge ∧ (2.5 : ℝ) < d.value
      · have hw : ¬ (d.type = SensorType.weather_station ∧ (60 : ℝ) < d.value) := by
          rintro ⟨hww, _⟩
          rw [h1.1] at hww
          exact SensorType.noConfusion hww
        rw [if_pos h1, if_neg hw]
        simp [h1.1, h1.2, surgeAlert_type]
      · rw [if_neg h1]
        have hp : (d.type == SensorType.tide_gauge &&
            decide ((2.5 : ℝ) < d.value)) = false := by
          rcases Decidable.not_and_iff_or_not.mp h1 with h | h
          · simp [h]
          · simp [h]
        rw [hp]
        by_cases h2 : d.type = SensorType.weather_station ∧ (60 : ℝ) < d.value
        · rw [if_pos h2]
          simp [cycloneAlert_type]
        · rw [if_neg h2]
          simp

/-- The cyclone alerts of detectThreats are exactly one alert per weather
reading above 60, in reading order. -/
theorem detectThreats_cyclone (l : List SensorData) :
    (detectThreats l).filter (fun a => a.type == "cyclone") =
      (l.filter (fun d => d.type == SensorType.weather_station &&
        decide ((60 : ℝ) < d.value))).map cycloneAlert := by
  induction l with
  | nil => rfl
  | cons d t ih =>
      rw [detectThreats_cons, List.filter_append, List.filter_append, ih, List.filter_cons]
      by_cases h2 : d.type = SensorType.weather_station ∧ (60 : ℝ) < d.value
      · have ht : ¬ (d.type = SensorType.tide_gauge ∧ (2.5 : ℝ) < d.value) := by
          rintro ⟨htt, _⟩
          rw [h2.1] at htt
          exact SensorType.noConfusion htt
        rw [if_pos h2, if_neg ht]
        simp [h2.1, h2.2, cycloneAlert_type]
      · have hp : (d.type == SensorType.weather_station &&
            decide ((60 : ℝ) < d.value)) = false := by
          rcases Decidable.not_and_iff_or_not.mp h2 with h | h
          · simp [h]
          · simp [h]
        rw [if_neg h2, hp]
        by_cases h1 : d.type = SensorType.tide_gauge ∧ (2.5 : ℝ) < d.value
        · rw [if_pos h1]
          simp [surgeAlert_type]
        · rw [if_neg h1]
          simp

/-- Every alert of detectThreats is a storm-surge or a cyclone alert. -/
theorem detectThreats_types (l : List SensorData) :
    ∀ a ∈ detectThreats l, a.type = "storm_surge" ∨ a.type = "cyclone" := by
  induction l with
  | nil => simp [detectThreats]
  | cons d t ih =>
      intro a ha
      rw [detectThreats_cons, List.append_assoc, List.mem_append, List.mem_append] at ha
      rcases ha with h | h | h
      · by_cases h1 : d.type = SensorType.tide_gauge ∧ (2.5 : ℝ) < d.value
        · rw [if_pos h1, List.mem_singleton] at h
          rw [h]
          exact Or.inl rfl
        · rw [if_neg h1] at h
          exact absurd h (List.not_mem_nil a)
      · by_cases h2 : d.type = SensorType.weather_station ∧ (60 : ℝ) < d.value
        · rw [if_pos h2, List.mem_singleton] at h
          rw [h]
          exact Or.inr rfl
        · rw [if_neg h2] at h
          exact absurd h (List.not_mem_nil a)
      · exact ih a h

/-- Claim C7: detectThreats emits exactly one storm-surge alert per tide
reading strictly above 2.5 (critical past 3, else high), exactly one cyclone
alert per weather reading strictly above 60 (critical past 80, else high),
and nothing else. -/
theorem c7_detectThreats (l : List SensorData) :
    ((detectThreats l).filter (fun a => a.type == "storm_surge") =
      (l.filter (fun d => d.type == SensorType.tide_gauge &&
        decide ((2.5 : ℝ) < d.value))).map surgeAlert) ∧
    ((detectThreats l).filter (fun a => a.type == "cyclone") =
      (l.filter (fun d => d.type == SensorType.weather_station &&
        decide ((60 : ℝ) < d.value))).map cycloneAlert) ∧
    (∀ a ∈ detectThreats l, a.type = "storm_surge" ∨ a.type = "cyclone") ∧
    (∀ d : SensorData,
      (surgeAlert d).severity =
        if 3 < d.value then Severity.critical else Severity.high) ∧
    (∀ d : SensorData,
      (cycloneAlert d).severity =
        if 80 < d.value then Severity.critical else Severity.high) :=
  ⟨detectThreats_storm l, detectThreats_cyclone l, detectThreats_types l,
    fun _ => rfl, fun _ => rfl⟩

/-- Characterization of the alert feedback over an arbitrary prediction list:
exactly the predictions with probability above 0.7 whose location string
resolves against the readings are kept, each mapped to its alert. -/
theorem runPredictionAlerts_char (sd : List SensorData) (anoms : List MLPrediction) :
    runPredictionAlerts sd anoms =
      (anoms.filter (fun p => decide ((0.7 : ℝ) < p.probability) &&
        (sd.find? (fun s => s.location.name == p.location)).isSome)).map
        (fun p => mkMLAlert p (locFor sd p)) := by
  induction anoms with
  | nil => rfl
  | cons p t ih =>
      simp only [runPredictionAlerts, List.flatMap_cons] at *
      rw [List.filter_cons]
      by_cases hp : (0.7 : ℝ) < p.probability
      · cases hf : sd.find? (fun s => s.location.name == p.location) with
        | some s =>
            have hloc : locFor sd p = s.location := by simp [locFor, hf]
            simp [hp, hf, hloc, ih]
        | none => simp [hp, hf, ih]
      · simp [hp, ih]

/-- Claim C2: in the prediction feedback of runPredictions, every anomaly of
the Threat Heuristic with probability strictly above 0.7 whose location name
matches some reading becomes exactly one alert for the alert sink, in order,
and anomalies at probability 0.7 or below (or without a matching reading)
produce none. -/
theorem c2_runPredictions (sensorData : List SensorData) :
    runPredictionAlerts sensorData (detectAnomalies sensorData) =
      ((detectAnomalies sensorData).filter (fun p =>
        decide ((0.7 : ℝ) < p.probability) &&
        sensorData.any (fun s => s.location.name == p.location))).map
        (fun p => mkMLAlert p (locFor sensorData p)) := by
  rw [runPredictionAlerts_char]
  congr 1
  apply List.filter_congr
  intro p _
  congr 1
  rw [Bool.eq_iff_iff]
  simp [List.find?_isSome, List.any_eq_true]

end Coastal
